import Mathlib

set_option maxRecDepth 10000

/-!
Shallow embedding of the marketplace analyzer scripts
(`github_actions_enhanced_analyzer.py` and `simple_marketplace_analyzer.py`).
Page texts and free-text CSV fields are modelled as `List Char`; Python floats
are modelled as rationals (`ℚ`); Python ints as `ℤ`/`ℕ`.
-/

/-- Lowercasing of a text, modelling Python `str.lower()` (ASCII letters). -/
def lower (s : List Char) : List Char := s.map Char.toLower

/-- Python substring containment `needle in hay`. -/
def containsSub (needle hay : List Char) : Bool :=
  hay.tails.any (fun t => needle.isPrefixOf t)

/-- Convert a list of keyword string literals to char-list form. -/
def kwList (l : List String) : List (List Char) := l.map String.toList

/-- Numeric value of a digit string (what Python `float` returns on an
all-digit string, which is always integral). -/
def digitsVal (ds : List Char) : ℕ := ds.foldl (fun a c => 10 * a + (c.toNat - 48)) 0

/-- The fixed category keyword table of `_extract_categories`. -/
def category_keywords : List (String × List String) :=
  [("fashion", ["fashion", "clothing", "apparel", "dress", "shirt", "pants", "denim", "jeans"]),
   ("beauty", ["beauty", "cosmetics", "makeup", "skincare", "perfume", "skincare device", "facial"]),
   ("electronics", ["electronics", "phone", "laptop", "computer", "gadget", "tech"]),
   ("home", ["home", "furniture", "decor", "kitchen", "bedroom", "living"]),
   ("sports", ["sports", "fitness", "outdoor", "exercise", "athletic", "cycling", "winter sports"]),
   ("jewelry", ["jewelry", "watch", "necklace", "ring", "bracelet", "accessories"]),
   ("books", ["books", "reading", "literature", "novel", "textbook"]),
   ("toys", ["toys", "games", "children", "kids", "play"]),
   ("automotive", ["car", "auto", "vehicle", "parts", "automotive"]),
   ("health", ["health", "medical", "wellness", "supplement", "pharmacy"]),
   ("pets", ["pet", "dog", "cat", "animal", "pet food", "pet toy", "pet care"])]

/-- Embedding of `_extract_categories`: a category label is kept when any of
its keywords occurs in the lowercased page text; at most 10 labels, in table
order. -/
def extract_categories (text : List Char) : List (List Char) :=
  let tl := lower text
  ((category_keywords.filter
      (fun ck => (kwList ck.2).any (fun k => containsSub k tl))).map
    (fun ck => ck.1.toList)).take 10

/-- Luxury indicator words of `_analyze_brands`. -/
def luxury_indicators : List String := ["luxury", "premium", "exclusive", "designer", "high-end"]

/-- Value indicator words of `_analyze_brands`. -/
def value_indicators : List String := ["affordable", "cheap", "discount", "sale", "budget"]

/-- Result record of `_analyze_brands`. -/
structure BrandAnalysis where
  positioning : String
  luxury_score : ℕ
  value_score : ℕ
deriving DecidableEq

/-- Embedding of `_analyze_brands`. -/
def analyze_brands (text : List Char) : BrandAnalysis :=
  let tl := lower text
  let ls := ((kwList luxury_indicators).filter (fun k => containsSub k tl)).length
  let vs := ((kwList value_indicators).filter (fun k => containsSub k tl)).length
  { positioning := if ls > vs then "premium" else if vs > ls then "value" else "mid-market",
    luxury_score := ls,
    value_score := vs }

/-- The stop-word table of `_detect_language`. -/
def language_indicators : List (String × List String) :=
  [("en", ["the", "and", "for", "with", "this", "that"]),
   ("es", ["el", "la", "de", "en", "un", "es"]),
   ("fr", ["le", "de", "et", "à", "un", "il"]),
   ("de", ["der", "die", "und", "in", "den", "von"]),
   ("it", ["il", "di", "e", "la", "in", "da"]),
   ("pt", ["o", "de", "e", "do", "da", "em"])]

/-- Embedding of `_detect_language`: `langAttr` is the root element's `lang`
attribute when present; otherwise the first 1000 characters of lowercased text
are scored against the stop-word table and the first language with maximal
score wins (Python `max` over an insertion-ordered dict). -/
def detect_language (langAttr : Option String) (text : List Char) : String :=
  match langAttr with
  | some l => l.take 2
  | none =>
    let sample := lower (text.take 1000)
    let scores := language_indicators.map
      (fun li => (li.1, ((kwList li.2).filter (fun k => containsSub k sample)).length))
    (scores.foldl (fun best cur => if cur.2 > best.2 then cur else best) ("en", 0)).1

/-- The currency indicator table of `_detect_currency`. -/
def currency_indicators : List (String × List String) :=
  [("USD", ["$", "usd", "dollar"]),
   ("EUR", ["€", "eur", "euro"]),
   ("GBP", ["£", "gbp", "pound"]),
   ("JPY", ["¥", "jpy", "yen"]),
   ("INR", ["₹", "inr", "rupee"])]

/-- Embedding of `_detect_currency`: first currency whose indicator occurs in
the lowercased page text, defaulting to USD. -/
def detect_currency (text : List Char) : String :=
  match currency_indicators.find?
      (fun ci => (kwList ci.2).any (fun k => containsSub k (lower text))) with
  | some ci => ci.1
  | none => "USD"

/-- Character class `[\d,]` of the price regexes. -/
def isDigitComma (c : Char) : Bool := c.isDigit || c == ','

/-- Fueled scanner for one price regex `sym[\d,]+` (plus `\.?\d*` when
`withDec`), modelling `re.findall`: leftmost non-overlapping maximal matches.
The fuel only bounds the number of steps; `text.length` always suffices since
every step consumes at least one character. -/
def scanPricesAux (sym : Char) (withDec : Bool) : ℕ → List Char → List (List Char)
  | 0, _ => []
  | _ + 1, [] => []
  | fuel + 1, c :: rest =>
    if c = sym then
      let ds := rest.takeWhile isDigitComma
      let rest1 := rest.dropWhile isDigitComma
      if ds.isEmpty then scanPricesAux sym withDec fuel rest
      else
        match withDec, rest1 with
        | true, '.' :: rest2 =>
          (sym :: ds ++ '.' :: rest2.takeWhile Char.isDigit) ::
            scanPricesAux sym withDec fuel (rest2.dropWhile Char.isDigit)
        | _, _ => (sym :: ds) :: scanPricesAux sym withDec fuel rest1
    else scanPricesAux sym withDec fuel rest

/-- All matches of one price regex over a text. -/
def scanPrices (sym : Char) (withDec : Bool) (text : List Char) : List (List Char) :=
  scanPricesAux sym withDec text.length text

/-- The five price regexes of `_analyze_prices`: currency symbol and whether
the pattern admits a decimal part (`¥[\d,]+` does not). -/
def price_patterns : List (Char × Bool) :=
  [('$', true), ('€', true), ('£', true), ('¥', false), ('₹', true)]

/-- Concatenated matches of the five price regexes, in pattern order. -/
def extract_price_matches (text : List Char) : List (List Char) :=
  (price_patterns.map (fun p => scanPrices p.1 p.2 text)).flatten

/-- Keep digits and dots, modelling `re.sub(r'[^\d.]', '', match)`. -/
def stripNonNumeric (m : List Char) : List Char :=
  m.filter (fun c => c.isDigit || c == '.')

/-- Python `float` on a stripped match (digits with at most one dot):
`none` models a raised `ValueError` (or the empty-string guard). The decimal
value `ip.fp` is built with `mkRat` as `(ip*10^k + fp) / 10^k`. -/
def parseNumeric (s : List Char) : Option ℚ :=
  let ip := s.takeWhile Char.isDigit
  match s.drop ip.length with
  | [] => if ip.isEmpty then none else some (digitsVal ip : ℚ)
  | '.' :: fp =>
    if ip.isEmpty && fp.isEmpty then none
    else some (mkRat ((digitsVal ip * 10 ^ fp.length + digitsVal fp : ℕ) : ℤ) (10 ^ fp.length))
  | _ => none

/-- The parsed numeric values of all regex matches, before range filtering. -/
def parsed_values (text : List Char) : List ℚ :=
  (extract_price_matches text).filterMap (fun m => parseNumeric (stripNonNumeric m))

/-- The surviving price values: parsed values within `[1, 50000]`. -/
def prices_of (text : List Char) : List ℚ :=
  (parsed_values text).filter (fun v => decide (1 ≤ v ∧ v ≤ 50000))

/-- Python `round(x, 2)` on exact values: round half to even at 2 decimals. -/
def pyRound2 (q : ℚ) : ℚ :=
  let s := q * 100
  let f : ℤ := ⌊s⌋
  let r : ℚ := s - (f : ℚ)
  let n : ℤ :=
    if r < 1 / 2 then f
    else if 1 / 2 < r then f + 1
    else if f % 2 = 0 then f else f + 1
  (n : ℚ) / 100

/-- Minimum of a price list (0 on the empty list, unused there). -/
def qmin (l : List ℚ) : ℚ :=
  match l with
  | [] => 0
  | x :: xs => xs.foldl min x

/-- Maximum of a price list (0 on the empty list, unused there). -/
def qmax (l : List ℚ) : ℚ :=
  match l with
  | [] => 0
  | x :: xs => xs.foldl max x

/-- Result record of `_analyze_prices`. -/
structure PriceAnalysis where
  average_price : ℚ
  min_price : ℚ
  max_price : ℚ
  price_count : ℕ
  currency_detected : String
deriving DecidableEq

/-- Embedding of `_analyze_prices`. -/
def analyze_prices (text : List Char) : PriceAnalysis :=
  let prices := prices_of text
  if prices.isEmpty then
    { average_price := 0, min_price := 0, max_price := 0,
      price_count := 0, currency_detected := "USD" }
  else
    { average_price := pyRound2 (prices.sum / (prices.length : ℚ)),
      min_price := pyRound2 (qmin prices),
      max_price := pyRound2 (qmax prices),
      price_count := prices.length,
      currency_detected := detect_currency text }

/-- One CSV row of the supplier database, as `_calculate_compatibility_score`
and `generate_supplier_recommendations` read it. Missing text cells are the
code's fallback `''`; `products_count` is `none` when the cell is missing
(`pd.notna` fails). -/
structure SupplierRecord where
  url : List Char
  categories : List Char
  description : List Char
  ships_to : List Char
  estimated_sales : List Char
  products_count : Option ℚ
deriving DecidableEq

/-- The fields of the marketplace analysis dict that the scorer and writer
consume. -/
structure MarketplaceAnalysis where
  categories : List (List Char)
  price_analysis : PriceAnalysis
  brand_analysis : BrandAnalysis
  language : String
deriving DecidableEq

/-- Category-matching term of the score: +20 for every marketplace category
occurring in the store's category text or description text. -/
def category_score (ma_categories : List (List Char))
    (store_categories store_description : List Char) : ℤ :=
  ma_categories.foldl
    (fun sc c =>
      if containsSub c store_categories || containsSub c store_description then sc + 20 else sc)
    0

/-- Embedding of `re.search(r'[\d,]+', s)`: the first maximal run of digits
and commas, if any. -/
def sales_match : List Char → Option (List Char)
  | [] => none
  | c :: rest =>
    if isDigitComma c then some (c :: rest.takeWhile isDigitComma) else sales_match rest

/-- Parsed monthly-sales value: the first `[\d,]+` run with commas removed,
read as a number; `none` when there is no run or `float` raises. -/
def parse_sales (s : List Char) : Option ℚ :=
  match sales_match s with
  | none => none
  | some m =>
    let ds := m.filter Char.isDigit
    if ds.isEmpty then none else some (digitsVal ds : ℚ)

/-- Price-compatibility term of the score (the `0.5` of the source is the
exact rational `1 / 2`). -/
def price_score (avg : ℚ) (estimated_sales : List Char) : ℤ :=
  if avg > 0 then
    if containsSub (("USD").toList) estimated_sales then
      match parse_sales estimated_sales with
      | some ms =>
        if ms > 0 then
          let est := ms / 100
          if |est - avg| < avg * (1 / 2) then 25
          else if |est - avg| < avg then 15
          else 0
        else 0
      | none => 0
    else 0
  else 0

/-- Premium keywords of the positioning bonus. -/
def premium_words : List String := ["premium", "luxury", "high-end", "quality"]

/-- Value keywords of the positioning bonus. -/
def value_words : List String := ["affordable", "value", "budget", "cheap"]

/-- Brand-positioning term of the score. -/
def positioning_score (positioning : String) (store_description : List Char) : ℤ :=
  if positioning == "premium"
      && (kwList premium_words).any (fun w => containsSub w store_description) then 15
  else if positioning == "value"
      && (kwList value_words).any (fun w => containsSub w store_description) then 15
  else 0

/-- Shipping term of the score (case-sensitive containment on the raw
Ships To text, as in the source). -/
def shipping_score (ships_to : List Char) : ℤ :=
  if containsSub (("International").toList) ships_to
      || containsSub (("United States").toList) ships_to then 10
  else 0

/-- Product-count term of the score. -/
def scale_score (products_count : Option ℚ) : ℤ :=
  match products_count with
  | none => 0
  | some n => if n > 0 then (if n > 100 then 10 else if n > 50 then 5 else 0) else 0

/-- Japanese-origin keywords. -/
def origin_words : List String := ["japan", "japanese", "tokyo", "osaka", "kyoto"]

/-- Japanese-origin term of the score. -/
def origin_score (store_description : List Char) : ℤ :=
  if (kwList origin_words).any (fun w => containsSub w (lower store_description)) then 15 else 0

/-- Embedding of `_calculate_compatibility_score`: the additive term sum,
capped at 100 by `min`. -/
def calculate_compatibility_score (store : SupplierRecord) (ma : MarketplaceAnalysis) : ℤ :=
  let store_categories := lower store.categories
  let store_description := lower store.description
  min 100
    (category_score ma.categories store_categories store_description
      + price_score ma.price_analysis.average_price store.estimated_sales
      + positioning_score ma.brand_analysis.positioning store_description
      + shipping_score store.ships_to
      + scale_score store.products_count
      + origin_score store_description)

/-- Embedding of `_estimate_price_range`: the numeric pair
`(0.3 * avg, 3 * avg)` that the source formats as a dollar string;
`none` models the "Unknown" fallback. -/
def estimate_price_range (store : SupplierRecord) : Option (ℚ × ℚ) :=
  if containsSub (("USD").toList) store.estimated_sales then
    match parse_sales store.estimated_sales with
    | some ms =>
      if ms > 0 then some ((ms / 100) * (3 / 10), (ms / 100) * 3) else none
    | none => none
  else none

/-- Fueled removal of every occurrence of `pat`, modelling Python
`str.replace(pat, '')`; `s.length` fuel always suffices for nonempty `pat`. -/
def removeAllAux (pat : List Char) : ℕ → List Char → List Char
  | 0, s => s
  | _ + 1, [] => []
  | fuel + 1, c :: rest =>
    if pat.isPrefixOf (c :: rest) then removeAllAux pat fuel ((c :: rest).drop pat.length)
    else c :: removeAllAux pat fuel rest

/-- Python `s.replace(pat, '')`. -/
def removeAll (pat s : List Char) : List Char := removeAllAux pat s.length s

/-- The `store_info` dict built for each qualifying store. -/
structure StoreInfo where
  store_name : List Char
  store_url : List Char
  categories : List Char
  description : List Char
  price_range : Option (ℚ × ℚ)
  international_shipping : String
  estimated_monthly_sales : List Char
  compatibility_score : ℤ
  products_count : Option ℚ
deriving DecidableEq

/-- Projection of a qualifying supplier into its `store_info` dict. -/
def store_info_of (store : SupplierRecord) (score : ℤ) : StoreInfo :=
  { store_name := (removeAll (("https://").toList) store.url).takeWhile (fun c => c != '.'),
    store_url := store.url,
    categories := store.categories,
    description := store.description.take 200,
    price_range := estimate_price_range store,
    international_shipping :=
      if containsSub (("International").toList) store.ships_to then "Yes" else "Unknown",
    estimated_monthly_sales := store.estimated_sales,
    compatibility_score := score,
    products_count := store.products_count }

/-- The descending-score ordering used by `scored_stores.sort(key=...,
reverse=True)`. -/
def scoreGE (a b : StoreInfo) : Prop := b.compatibility_score ≤ a.compatibility_score

instance : DecidableRel scoreGE :=
  fun a b => inferInstanceAs (Decidable (b.compatibility_score ≤ a.compatibility_score))

instance : IsTotal StoreInfo scoreGE :=
  ⟨fun a b => le_total b.compatibility_score a.compatibility_score⟩

instance : IsTrans StoreInfo scoreGE :=
  ⟨fun _ _ _ h1 h2 => le_trans h2 h1⟩

/-- Embedding of `generate_supplier_recommendations`: keep the stores scoring
above 30 (in input order), project each to its `store_info`, sort by
descending compatibility score (Python's sort is stable, modelled by
insertion sort with the reflexive descending order), truncate to
`max_suppliers`. -/
def generate_supplier_recommendations (ma : MarketplaceAnalysis)
    (stores : List SupplierRecord) (max_suppliers : ℕ) : List StoreInfo :=
  let scored_stores :=
    (stores.filter (fun s => decide (calculate_compatibility_score s ma > 30))).map
      (fun s => store_info_of s (calculate_compatibility_score s ma))
  (List.insertionSort scoreGE scored_stores).take max_suppliers

/-- The `summary_stats` dict of `save_results`. -/
structure SummaryStats where
  total_suppliers : ℕ
  avg_compatibility_score : ℚ
  top_categories : List (List Char)
  data_source : String
deriving DecidableEq

/-- The JSON summary dict of `save_results`. -/
structure Summary where
  marketplace_analysis : MarketplaceAnalysis
  supplier_recommendations : List StoreInfo
  summary_stats : SummaryStats
deriving DecidableEq

/-- One file written by `save_results`. -/
inductive FileArtifact
  | csv (name : String) (rows : List StoreInfo)
  | jsonSummary (name : String) (content : Summary)
deriving DecidableEq

/-- Observable outcome of a `save_results` call: the files written, in
order, and the returned filename pair. `result = none` models the
`UnboundLocalError` raised at the `return` statement when `csv_filename`
was never assigned. -/
structure SaveResultsRun where
  writes : List FileArtifact
  result : Option (String × String)
deriving DecidableEq

/-- Embedding of `save_results`. -/
def save_results (ma : MarketplaceAnalysis) (suppliers : List StoreInfo)
    (timestamp : String) : SaveResultsRun :=
  let csv_filename : Option String :=
    if suppliers.isEmpty then none else some ("matching_results_" ++ timestamp ++ ".csv")
  let json_filename : String := "matching_results_" ++ timestamp ++ "_summary.json"
  let summary : Summary :=
    { marketplace_analysis := ma,
      supplier_recommendations := suppliers,
      summary_stats :=
        { total_suppliers := suppliers.length,
          avg_compatibility_score :=
            if suppliers.isEmpty then 0
            else ((suppliers.map (fun s => s.compatibility_score)).sum : ℚ)
              / (suppliers.length : ℚ),
          top_categories := ma.categories.take 5,
          data_source := "all_japan_stores_unlimited.csv" } }
  { writes :=
      (match csv_filename with
        | some n => [FileArtifact.csv n suppliers]
        | none => []) ++ [FileArtifact.jsonSummary json_filename summary],
    result := csv_filename.map (fun n => (n, json_filename)) }

/-- Embedding of the enhanced script's `main` argument handling, on
`sys.argv[1:]`: no URL prints usage and exits 1; an omitted second argument
defaults `max_suppliers` to 20; an unparsable second argument makes `int`
raise, which is uncaught (exit status 1). -/
def enhanced_main_invocation (argv : List String) : Except ℕ (String × ℤ) :=
  match argv with
  | [] => Except.error 1
  | url :: rest =>
    match rest with
    | [] => Except.ok (url, 20)
    | m :: _ =>
      match m.toInt? with
      | some n => Except.ok (url, n)
      | none => Except.error 1

/-- One hard-coded supplier of the fallback script. -/
structure SimpleSupplier where
  store_name : String
  store_url : String
  categories : String
  description : String
  price_range : String
  compatibility_score : ℤ
deriving DecidableEq

/-- The fixed five-supplier sample list of `simple_marketplace_analyzer.py`. -/
def sample_suppliers : List SimpleSupplier :=
  [{ store_name := "Tokyo Fashion", store_url := "https://example-tokyo-fashion.com",
     categories := "Fashion, Accessories", description := "Premium Japanese fashion brand",
     price_range := "$50-$500", compatibility_score := 90 },
   { store_name := "Osaka Electronics", store_url := "https://example-osaka-electronics.com",
     categories := "Electronics, Gadgets", description := "High-quality Japanese electronics",
     price_range := "$100-$2000", compatibility_score := 85 },
   { store_name := "Kyoto Beauty", store_url := "https://example-kyoto-beauty.com",
     categories := "Beauty, Cosmetics", description := "Traditional Japanese beauty products",
     price_range := "$25-$300", compatibility_score := 88 },
   { store_name := "Hokkaido Home", store_url := "https://example-hokkaido-home.com",
     categories := "Home, Furniture", description := "Minimalist Japanese home decor",
     price_range := "$150-$1500", compatibility_score := 82 },
   { store_name := "Nara Sports", store_url := "https://example-nara-sports.com",
     categories := "Sports, Outdoor", description := "Japanese sports equipment",
     price_range := "$40-$800", compatibility_score := 75 }]

/-- The JSON summary dict of the fallback script. -/
structure SimpleSummary where
  marketplace_url : String
  marketplace_name : String
  detected_categories : List (List Char)
  supplier_count : ℕ
  analysis_timestamp : String
deriving DecidableEq

/-- Observable output of one successful fallback run. -/
structure SimpleRun where
  csv_name : String
  csv_rows : List SimpleSupplier
  json_name : String
  summary : SimpleSummary
deriving DecidableEq

/-- The six category keywords of the fallback script. -/
def simple_keywords : List String :=
  ["fashion", "beauty", "electronics", "home", "sports", "jewelry"]

/-- Embedding of the fallback `analyze_marketplace` on a successfully fetched
page: `pageText` is `soup.get_text()` and `titleText` the stripped title
element text when present. -/
def simple_analyze_marketplace (url : String) (pageText : List Char)
    (titleText : Option String) (timestamp : String) : SimpleRun :=
  let title_text := match titleText with | some t => t | none => "Unknown"
  let cats := (kwList simple_keywords).filter (fun k => containsSub k (lower pageText))
  { csv_name := "matching_results_" ++ timestamp ++ ".csv",
    csv_rows := sample_suppliers,
    json_name := "matching_results_" ++ timestamp ++ "_summary.json",
    summary :=
      { marketplace_url := url,
        marketplace_name := title_text,
        detected_categories := cats,
        supplier_count := sample_suppliers.length,
        analysis_timestamp := timestamp } }

/-- Embedding of the fallback script's `__main__` block: a missing URL
argument is replaced by the literal default URL and the script always
finishes with exit status 0 (all errors are caught). The pair is
(URL used, exit status). -/
def simple_main_invocation (argv : List String) : String × ℕ :=
  (match argv with
    | [] => "https://www.extra.com"
    | u :: _ => u,
   0)

/-- Supplier of the C6 scenario: description
"Affordable Tokyo electronics, budget-friendly", all other fields absent. -/
def exC6_store : SupplierRecord :=
  { url := [], categories := [],
    description := ("Affordable Tokyo electronics, budget-friendly").toList,
    ships_to := [], estimated_sales := [], products_count := none }

/-- Marketplace of the C6 scenario: positioning "value", categories
containing "electronics", no price signal. -/
def exC6_ma : MarketplaceAnalysis :=
  { categories := [("electronics").toList],
    price_analysis :=
      { average_price := 0, min_price := 0, max_price := 0,
        price_count := 0, currency_detected := "USD" },
    brand_analysis := { positioning := "value", luxury_score := 0, value_score := 1 },
    language := "en" }

/-- Page text of the C7 scenario: title text followed by the body text. -/
def exC7_text : List Char :=
  ("Tokyo Style Premium Japanese fashion, $120 dresses").toList

/-- Marketplace for the C2 counterexample: two matched categories, no other
signal. -/
def exC2_ma : MarketplaceAnalysis :=
  { categories := [("electronics").toList, ("fashion").toList],
    price_analysis :=
      { average_price := 0, min_price := 0, max_price := 0,
        price_count := 0, currency_detected := "USD" },
    brand_analysis := { positioning := "mid-market", luxury_score := 0, value_score := 0 },
    language := "en" }

/-- First supplier of the C2 counterexample (scores 40). -/
def exC2_s1 : SupplierRecord :=
  { url := ("https://a.example.com").toList,
    categories := ("electronics fashion").toList,
    description := [], ships_to := [], estimated_sales := [], products_count := none }

/-- Second supplier of the C2 counterexample (also scores 40). -/
def exC2_s2 : SupplierRecord :=
  { url := ("https://b.example.com").toList,
    categories := ("electronics fashion").toList,
    description := [], ships_to := [], estimated_sales := [], products_count := none }

theorem foldl_score_le (l : List (List Char)) (a b : List Char) (s : ℤ) :
    s ≤ l.foldl
      (fun sc c => if containsSub c a || containsSub c b then sc + 20 else sc) s := by
  induction l generalizing s with
  | nil => exact le_refl s
  | cons c t ih =>
    refine le_trans ?_ (ih _)
    dsimp only
    split <;> omega

theorem category_score_nonneg (cs : List (List Char)) (a b : List Char) :
    0 ≤ category_score cs a b :=
  foldl_score_le cs a b 0

theorem parse_sales_nonneg (s : List Char) (ms : ℚ) (h : parse_sales s = some ms) :
    0 ≤ ms := by
  unfold parse_sales at h
  rcases hm : sales_match s with _ | m <;> rw [hm] at h
  · simp at h
  · dsimp only at h
    split_ifs at h
    rw [Option.some_inj] at h
    exact h ▸ Nat.cast_nonneg _

theorem price_score_nonneg (avg : ℚ) (es : List Char) : 0 ≤ price_score avg es := by
  unfold price_score
  split_ifs <;> try omega
  rcases parse_sales es with _ | ms <;> simp <;> split_ifs <;> omega

theorem positioning_score_nonneg (p : String) (d : List Char) : 0 ≤ positioning_score p d := by
  unfold positioning_score
  split_ifs <;> omega

theorem shipping_score_nonneg (st : List Char) : 0 ≤ shipping_score st := by
  unfold shipping_score
  split_ifs <;> omega

theorem scale_score_nonneg (pc : Option ℚ) : 0 ≤ scale_score pc := by
  unfold scale_score
  rcases pc with _ | n <;> simp <;> split_ifs <;> omega

theorem origin_score_nonneg (d : List Char) : 0 ≤ origin_score d := by
  unfold origin_score
  split_ifs <;> omega

/-- C1: for every supplier record and every marketplace analysis the
compatibility score is an integer between 0 and 100: every additive term is
non-negative and the sum is clamped above at 100 by `min`. -/
theorem compatibility_score_bounds (store : SupplierRecord) (ma : MarketplaceAnalysis) :
    0 ≤ calculate_compatibility_score store ma
      ∧ calculate_compatibility_score store ma ≤ 100 := by
  unfold calculate_compatibility_score
  constructor
  · have h1 := category_score_nonneg ma.categories (lower store.categories)
      (lower store.description)
    have h2 := price_score_nonneg ma.price_analysis.average_price store.estimated_sales
    have h3 := positioning_score_nonneg ma.brand_analysis.positioning (lower store.description)
    have h4 := shipping_score_nonneg store.ships_to
    have h5 := scale_score_nonneg store.products_count
    have h6 := origin_score_nonneg (lower store.description)
    exact le_min (by omega) (by omega)
  · exact min_le_left _ _

theorem orderedInsert_filter_score (a : StoreInfo) (l : List StoreInfo) (k : ℤ) :
    (List.orderedInsert scoreGE a l).filter (fun x => decide (x.compatibility_score = k))
      = if a.compatibility_score = k
          then a :: l.filter (fun x => decide (x.compatibility_score = k))
          else l.filter (fun x => decide (x.compatibility_score = k)) := by
  induction l with
  | nil =>
    simp only [List.orderedInsert_nil, List.filter]
    split_ifs with h <;> simp [h]
  | cons b t ih =>
    by_cases hr : scoreGE a b
    · rw [List.orderedInsert_of_le scoreGE t hr]
      by_cases ha : a.compatibility_score = k <;> simp [List.filter_cons, ha]
    · have hlt : a.compatibility_score < b.compatibility_score := by
        unfold scoreGE at hr
        omega
      simp only [List.orderedInsert, if_neg hr]
      by_cases ha : a.compatibility_score = k
      · have hb : b.compatibility_score ≠ k := by omega
        simp [List.filter_cons, hb, ih, ha]
      · simp [List.filter_cons, ih, ha]

theorem insertionSort_filter_score (l : List StoreInfo) (k : ℤ) :
    (List.insertionSort scoreGE l).filter (fun x => decide (x.compatibility_score = k))
      = l.filter (fun x => decide (x.compatibility_score = k)) := by
  induction l with
  | nil => rfl
  | cons a t ih =>
    show (List.orderedInsert scoreGE a (List.insertionSort scoreGE t)).filter _ = _
    rw [orderedInsert_filter_score]
    by_cases ha : a.compatibility_score = k <;> simp [List.filter_cons, ha, ih]

/-- C2corrected: the recommendation list equals the first `max_suppliers`
elements of the stable descending sort of exactly the qualifying stores
(those scoring above 30, projected to their `store_info`): the sorted list is
a permutation of the qualifying list, ties keep input order (filtering to any
fixed score value is unchanged by the sort), the output is non-increasing by
score, has length at most `max_suppliers`, and only contains entries scoring
above 30. -/
theorem generate_supplier_recommendations_spec (ma : MarketplaceAnalysis)
    (stores : List SupplierRecord) (max_suppliers : ℕ) :
    generate_supplier_recommendations ma stores max_suppliers
        = (List.insertionSort scoreGE
            ((stores.filter (fun s => decide (calculate_compatibility_score s ma > 30))).map
              (fun s => store_info_of s (calculate_compatibility_score s ma)))).take
            max_suppliers
      ∧ List.Perm
          (List.insertionSort scoreGE
            ((stores.filter (fun s => decide (calculate_compatibility_score s ma > 30))).map
              (fun s => store_info_of s (calculate_compatibility_score s ma))))
          ((stores.filter (fun s => decide (calculate_compatibility_score s ma > 30))).map
            (fun s => store_info_of s (calculate_compatibility_score s ma)))
      ∧ (∀ k : ℤ,
          (List.insertionSort scoreGE
              ((stores.filter (fun s => decide (calculate_compatibility_score s ma > 30))).map
                (fun s => store_info_of s (calculate_compatibility_score s ma)))).filter
              (fun x => decide (x.compatibility_score = k))
            = ((stores.filter (fun s => decide (calculate_compatibility_score s ma > 30))).map
                (fun s => store_info_of s (calculate_compatibility_score s ma))).filter
                (fun x => decide (x.compatibility_score = k)))
      ∧ List.Sorted scoreGE (generate_supplier_recommendations ma stores max_suppliers)
      ∧ (generate_supplier_recommendations ma stores max_suppliers).length ≤ max_suppliers
      ∧ ∀ x ∈ generate_supplier_recommendations ma stores max_suppliers,
          30 < x.compatibility_score := by
  refine ⟨rfl, List.perm_insertionSort scoreGE _, fun k => insertionSort_filter_score _ k,
    ?_, ?_, ?_⟩
  · exact (List.sorted_insertionSort scoreGE _).sublist (List.take_sublist _ _)
  · exact List.length_take_le _ _
  · intro x hx
    have hx2 : x ∈ List.insertionSort scoreGE
        ((stores.filter (fun s => decide (calculate_compatibility_score s ma > 30))).map
          (fun s => store_info_of s (calculate_compatibility_score s ma))) :=
      List.take_subset _ _ hx
    rw [List.mem_insertionSort] at hx2
    obtain ⟨s, hs, rfl⟩ := List.mem_map.1 hx2
    have hs2 := (List.mem_filter.1 hs).2
    simpa [store_info_of] using of_decide_eq_true hs2

/-- C2corrected witness: instantiating the specification on the concrete
two-store input with `max_suppliers = 1`, the member of the output list
scores above 30. -/
theorem generate_supplier_recommendations_spec_witness :
    30 < (store_info_of exC2_s1
        (calculate_compatibility_score exC2_s1 exC2_ma)).compatibility_score :=
  (generate_supplier_recommendations_spec exC2_ma [exC2_s1, exC2_s2] 1).2.2.2.2.2
    (store_info_of exC2_s1 (calculate_compatibility_score exC2_s1 exC2_ma)) (by decide)

/-- C2 counterexample: with two stores both scoring 40 (> 30) and
`max_suppliers = 1`, the returned list does not contain every input record
scoring above 30 — the second store qualifies but is truncated away. -/
theorem generate_supplier_recommendations_cex :
    30 < calculate_compatibility_score exC2_s2 exC2_ma
      ∧ store_info_of exC2_s2 (calculate_compatibility_score exC2_s2 exC2_ma)
          ∉ generate_supplier_recommendations exC2_ma [exC2_s1, exC2_s2] 1 := by
  refine ⟨by decide, by decide⟩

/-- C3: the price-compatibility term is 0 when the marketplace average price
is 0, when the estimated-sales text lacks "USD", or when no number can be
parsed from it; otherwise, with estimated average price `ms / 100` for the
parsed monthly sales `ms`, it is 25 when the absolute difference to the
marketplace average is below half the average, 15 when it is at least half
the average but below it, and 0 otherwise. -/
theorem price_score_spec (avg : ℚ) (es : List Char) :
    (avg = 0 → price_score avg es = 0)
      ∧ (containsSub (("USD").toList) es = false → price_score avg es = 0)
      ∧ (parse_sales es = none → price_score avg es = 0)
      ∧ (∀ ms : ℚ, 0 < avg → containsSub (("USD").toList) es = true →
          parse_sales es = some ms →
          price_score avg es =
            if |ms / 100 - avg| < avg * (1 / 2) then 25
            else if |ms / 100 - avg| < avg then 15
            else 0) := by
  refine ⟨?_, ?_, ?_, ?_⟩
  · intro h
    simp [price_score, h]
  · intro h
    unfold price_score
    rw [h]
    simp
  · intro h
    unfold price_score
    rw [h]
    simp
  · intro ms h0 hc hp
    have hms := parse_sales_nonneg es ms hp
    unfold price_score
    rw [if_pos h0, hc, if_pos rfl, hp]
    rcases eq_or_lt_of_le hms with hzero | hpos
    · rw [← hzero]
      have hhalf : ¬ |(0 : ℚ) / 100 - avg| < avg * (1 / 2) := by
        rw [zero_div, zero_sub, abs_neg, abs_of_pos h0]
        intro hlt
        linarith
      have hful : ¬ |(0 : ℚ) / 100 - avg| < avg := by
        rw [zero_div, zero_sub, abs_neg, abs_of_pos h0]
        exact lt_irrefl avg
      dsimp only
      rw [if_neg (lt_irrefl (0 : ℚ)), if_neg hhalf, if_neg hful]
    · dsimp only
      rw [if_pos hpos]

/-- C3 witness: with marketplace average 100 and estimated-sales text
"USD 5,000", the parsed monthly sales are 5000, the estimated price 50
differs from the average by exactly half of it, and the term is 15. -/
theorem price_score_spec_witness : price_score 100 (("USD 5,000").toList) = 15 := by
  have h := (price_score_spec 100 (("USD 5,000").toList)).2.2.2 5000 (by norm_num)
    (by decide) (by decide)
  rw [h]
  norm_num

/-- C4: price extraction keeps exactly the parsed regex values within
[1, 50000] — a page containing "$50000.01" contributes no value, one
containing "$49999.99" contributes one — and the aggregation returns all-zero
stats with currency USD when nothing survives, otherwise the
2-decimal-rounded average and the surviving count. -/
theorem analyze_prices_spec (text : List Char) :
    prices_of text
        = (parsed_values text).filter (fun v => decide (1 ≤ v ∧ v ≤ 50000))
      ∧ (prices_of text = [] →
          analyze_prices text
            = { average_price := 0, min_price := 0, max_price := 0,
                price_count := 0, currency_detected := "USD" })
      ∧ (prices_of text ≠ [] →
          (analyze_prices text).average_price
              = pyRound2 ((prices_of text).sum / ((prices_of text).length : ℚ))
            ∧ (analyze_prices text).price_count = (prices_of text).length)
      ∧ prices_of (("$50000.01").toList) = []
      ∧ prices_of (("$49999.99").toList) = [mkRat 4999999 100] := by
  refine ⟨rfl, ?_, ?_, by decide, by decide⟩
  · intro h
    simp [analyze_prices, h]
  · intro h
    have hne : (prices_of text).isEmpty = false := by
      cases hp : prices_of text with
      | nil => exact absurd hp h
      | cons a t => rfl
    exact ⟨by simp [analyze_prices, hne], by simp [analyze_prices, hne]⟩

/-- C4 witness: on the page text "$49999.99" one value survives, so the
average is the 2-decimal rounding of the single value and the count is 1. -/
theorem analyze_prices_spec_witness :
    (analyze_prices (("$49999.99").toList)).average_price
        = pyRound2 ((prices_of (("$49999.99").toList)).sum
            / ((prices_of (("$49999.99").toList)).length : ℚ))
      ∧ (analyze_prices (("$49999.99").toList)).price_count
          = (prices_of (("$49999.99").toList)).length :=
  (analyze_prices_spec (("$49999.99").toList)).2.2.1 (by decide)

/-- C5: on an empty ranked supplier list the writer produces no CSV
artifact and still writes the JSON summary (with 0 total suppliers and mean
compatibility score 0) — but it then raises instead of returning the
filename pair, so the "completes its contract" part of the claim fails on
the code (the `UnboundLocalError` slip documented by C10). -/
theorem save_results_empty_contract (ma : MarketplaceAnalysis) (timestamp : String) :
    ((save_results ma [] timestamp).writes.filter
        (fun a => match a with | FileArtifact.csv _ _ => true | _ => false)) = []
      ∧ (save_results ma [] timestamp).writes
          = [FileArtifact.jsonSummary ("matching_results_" ++ timestamp ++ "_summary.json")
              { marketplace_analysis := ma,
                supplier_recommendations := [],
                summary_stats :=
                  { total_suppliers := 0, avg_compatibility_score := 0,
                    top_categories := ma.categories.take 5,
                    data_source := "all_japan_stores_unlimited.csv" } }]
      ∧ (save_results ma [] timestamp).result = none :=
  ⟨rfl, rfl, rfl⟩

/-- C10: a `save_results` call with an empty supplier list writes exactly
one file — the JSON summary — and returns no filename pair: `csv_filename`
is assigned only under the non-empty branch, so the `return` statement
raises (modelled by `result = none`) after the summary file was written. -/
theorem save_results_empty_crash (ma : MarketplaceAnalysis) (timestamp : String) :
    (save_results ma [] timestamp).writes
        = [FileArtifact.jsonSummary ("matching_results_" ++ timestamp ++ "_summary.json")
            { marketplace_analysis := ma,
              supplier_recommendations := [],
              summary_stats :=
                { total_suppliers := 0, avg_compatibility_score := 0,
                  top_categories := ma.categories.take 5,
                  data_source := "all_japan_stores_unlimited.csv" } }]
      ∧ (save_results ma [] timestamp).result = none :=
  ⟨rfl, rfl⟩

/-- C7: on the scenario page (title "Tokyo Style", body "Premium Japanese
fashion, $120 dresses", root lang="ja") the extractor finds category
"fashion", language "ja", positioning "premium" with luxury score 1 and
value score 0, and price stats with average 120, one counted price and
currency USD. -/
theorem extractor_scenario_c7 :
    ("fashion").toList ∈ extract_categories exC7_text
      ∧ detect_language (some "ja") exC7_text = "ja"
      ∧ analyze_brands exC7_text
          = { positioning := "premium", luxury_score := 1, value_score := 0 }
      ∧ analyze_prices exC7_text
          = { average_price := 120, min_price := 120, max_price := 120,
              price_count := 1, currency_detected := "USD" } := by
  have hp : prices_of exC7_text = [((120 : ℕ) : ℚ)] := by decide
  refine ⟨by decide, by decide, by decide, ?_⟩
  simp [analyze_prices, hp, qmin, qmax, pyRound2, detect_currency]
  constructor
  · norm_num
  · decide

/-- C8: the fallback analyzer emits the same fixed five-supplier sample for
every URL, page content, title and timestamp: any two runs produce identical
CSV rows, and the summary always counts 5 suppliers. -/
theorem fallback_fixed_suppliers (u1 u2 : String) (p1 p2 : List Char)
    (t1 t2 : Option String) (ts1 ts2 : String) :
    (simple_analyze_marketplace u1 p1 t1 ts1).csv_rows = sample_suppliers
      ∧ (simple_analyze_marketplace u1 p1 t1 ts1).csv_rows
          = (simple_analyze_marketplace u2 p2 t2 ts2).csv_rows
      ∧ (simple_analyze_marketplace u1 p1 t1 ts1).summary.supplier_count = 5 :=
  ⟨rfl, rfl, rfl⟩

/-- C9 counterexample: the fallback variant invoked without a URL argument
does not terminate with a usage error — it substitutes the hard-coded
default URL and finishes with exit status 0. -/
theorem simple_main_no_usage_error :
    simple_main_invocation [] = ("https://www.extra.com", 0) := rfl

/-- C9corrected: the enhanced variant exits with status 1 on a missing URL
and defaults `max_suppliers` to 20 when omitted; the fallback variant
instead substitutes the default URL `https://www.extra.com` for a missing
argument and always exits with status 0. -/
theorem cli_invocation_spec :
    enhanced_main_invocation [] = Except.error 1
      ∧ (∀ url : String, enhanced_main_invocation [url] = Except.ok (url, 20))
      ∧ (simple_main_invocation []).2 = 0
      ∧ ∀ (url : String) (rest : List String),
          simple_main_invocation (url :: rest) = (url, 0) :=
  ⟨rfl, fun _ => rfl, rfl, fun _ _ => rfl⟩

/-- C6: the supplier described as "Affordable Tokyo electronics,
budget-friendly", scored against a marketplace with positioning "value" and
categories containing "electronics", gains +20 from category matching, +15
from positioning matching and +15 from the origin bonus, 50 in total before
the shipping, scale and price terms (which are all 0 here, so the full score
is 50 as well). -/
theorem scoring_scenario_c6 :
    category_score exC6_ma.categories (lower exC6_store.categories)
        (lower exC6_store.description) = 20
      ∧ positioning_score exC6_ma.brand_analysis.positioning (lower exC6_store.description) = 15
      ∧ origin_score (lower exC6_store.description) = 15
      ∧ category_score exC6_ma.categories (lower exC6_store.categories)
            (lower exC6_store.description)
          + positioning_score exC6_ma.brand_analysis.positioning (lower exC6_store.description)
          + origin_score (lower exC6_store.description) = 50
      ∧ calculate_compatibility_score exC6_store exC6_ma = 50 := by
  refine ⟨by decide, by decide, by decide, by decide, by decide⟩
